import Mathlib

/-!
Shallow embedding of the substation digital-twin data layer (`src/main.py`).

The Python program keeps a module-level dictionary `substation_data` with four
lists (`transformers`, `circuit_breakers`, `busbars`, `alarms`) and exposes
FastAPI handlers over it.  Each handler is embedded as a pure function from a
`Store` (plus its request arguments) to a response paired with the store after
the call; write handlers mutate the store, read handlers return it unchanged,
mirroring the Python code operating on the global dictionary.

Numeric measurement fields are carried as `Int` and timestamps as `Nat`
(capture instants); none of the verified behaviour computes with them, they
are only stored and copied, so the representation is irrelevant to the claims.
-/

/-- `TransformerData` pydantic model of `main.py`. -/
structure TransformerData where
  transformer_id : String
  primary_voltage : Int
  secondary_voltage : Int
  primary_current : Int
  secondary_current : Int
  oil_temperature : Int
  winding_temperature : Int
  load_percentage : Int
  power_factor : Int
  timestamp : Nat
deriving DecidableEq, Repr

/-- `CircuitBreakerData` pydantic model of `main.py`. -/
structure CircuitBreakerData where
  breaker_id : String
  status : String
  voltage : Int
  current : Int
  operation_count : Int
  timestamp : Nat
deriving DecidableEq, Repr

/-- `BusbarData` pydantic model of `main.py`. -/
structure BusbarData where
  busbar_id : String
  voltage : Int
  frequency : Int
  active_power : Int
  reactive_power : Int
  timestamp : Nat
deriving DecidableEq, Repr

/-- `AlarmData` pydantic model of `main.py`. -/
structure AlarmData where
  alarm_id : String
  equipment_id : String
  severity : String
  message : String
  timestamp : Nat
deriving DecidableEq, Repr

/-- The global `substation_data` dictionary: one list per category. -/
structure Store where
  transformers : List TransformerData
  circuit_breakers : List CircuitBreakerData
  busbars : List BusbarData
  alarms : List AlarmData
deriving DecidableEq, Repr

/-- The initial value of `substation_data`: every category empty. -/
def initialStore : Store := ⟨[], [], [], []⟩

/-- Python `l[-n:]` for `n > 0`: the at-most-`n` trailing elements of `l`. -/
def lastN (n : Nat) (l : List α) : List α := l.drop (l.length - n)

/-- Errors a handler can surface.  `httpException` is a well-formed
`fastapi.HTTPException(status_code, detail)`; `typeError` is a Python
`TypeError` raised before any HTTP exception object exists. -/
inductive PyError where
  | httpException (status_code : Nat) (detail : String)
  | typeError (message : String)
deriving DecidableEq, Repr

/-- Embeds the call `HTTPException(status_code=..., message=...)` as written in
`main.py`.  `fastapi.HTTPException.__init__` accepts only `status_code`,
`detail` and `headers`; the keyword `message` is not among them, so in Python
this call raises `TypeError` instead of constructing a 404 exception. -/
def HTTPException_message_kcall (status_code : Nat) (message : String) : PyError :=
  PyError.typeError "HTTPException got an unexpected keyword argument message"

/-- The `{"status": "success", "data": data}` body returned by POST handlers. -/
structure PostResp (α : Type) where
  status : String
  data : α
deriving DecidableEq, Repr

/-- The `{"count": ..., "data": ...}` body returned by list handlers. -/
structure ListResp (α : Type) where
  count : Nat
  data : List α
deriving DecidableEq, Repr

/-- `POST /api/transformers`: append, then keep only the last 100 readings. -/
def add_transformer_data (data : TransformerData) (s : Store) :
    PostResp TransformerData × Store :=
  let ts := s.transformers ++ [data]
  (⟨"success", data⟩, { s with transformers := lastN 100 ts })

/-- `GET /api/transformers`. -/
def get_all_transformers (s : Store) : ListResp TransformerData × Store :=
  (⟨s.transformers.length, s.transformers⟩, s)

/-- Response shape of the by-id GET handlers. -/
structure ByIdResp (α : Type) where
  id : String
  latest : α
  history : List α
deriving DecidableEq, Repr

/-- `GET /api/transformers/{transformer_id}`: filter by id; on no match the
source raises `HTTPException(status_code=404, message=...)` (see
`HTTPException_message_kcall`), otherwise returns latest (= last element of
the filtered list) and the full filtered history. -/
def get_transformer (transformer_id : String) (s : Store) :
    Except PyError (ByIdResp TransformerData) × Store :=
  let transformer_readings :=
    s.transformers.filter (fun t => t.transformer_id == transformer_id)
  if h : transformer_readings = [] then
    (Except.error (HTTPException_message_kcall 404 "Transformer not found"), s)
  else
    (Except.ok ⟨transformer_id, transformer_readings.getLast h, transformer_readings⟩, s)

/-- `POST /api/circuit-breakers`: append, then keep only the last 100. -/
def add_breaker_data (data : CircuitBreakerData) (s : Store) :
    PostResp CircuitBreakerData × Store :=
  let bs := s.circuit_breakers ++ [data]
  (⟨"success", data⟩, { s with circuit_breakers := lastN 100 bs })

/-- `GET /api/circuit-breakers`. -/
def get_all_breakers (s : Store) : ListResp CircuitBreakerData × Store :=
  (⟨s.circuit_breakers.length, s.circuit_breakers⟩, s)

/-- `GET /api/circuit-breakers/{breaker_id}`: same shape as `get_transformer`,
including the malformed not-found construction. -/
def get_breaker (breaker_id : String) (s : Store) :
    Except PyError (ByIdResp CircuitBreakerData) × Store :=
  let breaker_readings :=
    s.circuit_breakers.filter (fun b => b.breaker_id == breaker_id)
  if h : breaker_readings = [] then
    (Except.error (HTTPException_message_kcall 404 "Circuit breaker not found"), s)
  else
    (Except.ok ⟨breaker_id, breaker_readings.getLast h, breaker_readings⟩, s)

/-- `POST /api/busbars`: append, then keep only the last 100. -/
def add_busbar_data (data : BusbarData) (s : Store) :
    PostResp BusbarData × Store :=
  let bs := s.busbars ++ [data]
  (⟨"success", data⟩, { s with busbars := lastN 100 bs })

/-- `GET /api/busbars`. -/
def get_all_busbars (s : Store) : ListResp BusbarData × Store :=
  (⟨s.busbars.length, s.busbars⟩, s)

/-- `POST /api/alarms`: append with no cap. -/
def create_alarm (data : AlarmData) (s : Store) : PostResp AlarmData × Store :=
  (⟨"success", data⟩, { s with alarms := s.alarms ++ [data] })

/-- `GET /api/alarms?severity=...`.  The guard `if severity:` in Python is
true only for a present, non-empty string, so `None` and `""` both skip the
filter. -/
def get_alarms (severity : Option String) (s : Store) : ListResp AlarmData × Store :=
  let alarms := s.alarms
  let alarms :=
    match severity with
    | none => alarms
    | some sv => if sv = "" then alarms else alarms.filter (fun a => a.severity == sv)
  (⟨alarms.length, alarms⟩, s)

/-- One step of the dashboard's `latest[k] = t` loop on an insertion-ordered
Python dict, represented as an association list: overwrite in place when the
key is present, append otherwise. -/
def upsert (k : String) (v : α) : List (String × α) → List (String × α)
  | [] => [(k, v)]
  | (k', v') :: rest =>
    if k' = k then (k, v) :: rest else (k', v') :: upsert k v rest

/-- The dashboard's latest-reading-per-id dict for one category: scan the
sequence once, overwriting on duplicate ids. -/
def latestPerId (key : α → String) (l : List α) : List (String × α) :=
  l.foldl (fun m t => upsert (key t) t m) []

/-- The `"statistics"` object of the dashboard response. -/
structure DashStats where
  total_transformers : Nat
  total_breakers : Nat
  total_busbars : Nat
  active_alarms : Nat
deriving DecidableEq, Repr

/-- The dashboard response body. -/
structure DashboardResp where
  timestamp : String
  transformers : List TransformerData
  circuit_breakers : List CircuitBreakerData
  busbars : List BusbarData
  alarms : List AlarmData
  statistics : DashStats
deriving DecidableEq, Repr

/-- `GET /api/dashboard`.  `now` stands for `datetime.now().isoformat()`,
the wall-clock instant of the call, supplied as a parameter. -/
def get_dashboard (now : String) (s : Store) : DashboardResp × Store :=
  let latest_transformers := latestPerId (fun t => t.transformer_id) s.transformers
  let latest_breakers := latestPerId (fun b => b.breaker_id) s.circuit_breakers
  let latest_busbars := latestPerId (fun bb => bb.busbar_id) s.busbars
  let active_alarms := lastN 10 s.alarms
  (⟨now,
    latest_transformers.map Prod.snd,
    latest_breakers.map Prod.snd,
    latest_busbars.map Prod.snd,
    active_alarms,
    ⟨latest_transformers.length, latest_breakers.length, latest_busbars.length,
      active_alarms.length⟩⟩, s)

/-! ### Generic facts about `lastN` and capped appending -/

theorem lastN_length_le (n : Nat) (l : List α) : (lastN n l).length ≤ n := by
  simp [lastN]
  omega

theorem lastN_of_length_le (n : Nat) (l : List α) (h : l.length ≤ n) :
    lastN n l = l := by
  simp [lastN, Nat.sub_eq_zero_of_le h]

/-- Trimming to the last `n`, appending, and trimming again is the same as
appending and trimming once. -/
theorem lastN_append_lastN (n : Nat) (ys xs : List α) :
    lastN n (lastN n ys ++ xs) = lastN n (ys ++ xs):= by
  rcases le_or_lt ys.length n with h | h
  · rw [lastN_of_length_le n ys h]
  · have hd : ys.length - n ≤ ys.length := Nat.sub_le _ _
    have h1 : lastN n ys ++ xs = (ys ++ xs).drop (ys.length - n) := by
      rw [lastN, List.drop_append_of_le_length hd]
    rw [h1, lastN, lastN, List.length_drop, List.drop_drop, List.length_append]
    congr 1
    omega

/-- Folding the append-then-trim step over a whole input list, starting from a
list already within the cap, keeps exactly the trailing `100`. -/
theorem foldl_capped_append (xs l : List α) (h : l.length ≤ 100) :
    xs.foldl (fun acc x => lastN 100 (acc ++ [x])) l = lastN 100 (l ++ xs) := by
  induction xs generalizing l with
  | nil => simp [lastN_of_length_le 100 l h]
  | cons x xs ih =>
    rw [List.foldl_cons, ih (lastN 100 (l ++ [x])) (lastN_length_le _ _),
      lastN_append_lastN]
    simp

/-- State after a sequence of `POST /api/transformers` calls. -/
def run_transformer_appends (xs : List TransformerData) (s : Store) : Store :=
  xs.foldl (fun st d => (add_transformer_data d st).2) s

/-- State after a sequence of `POST /api/circuit-breakers` calls. -/
def run_breaker_appends (xs : List CircuitBreakerData) (s : Store) : Store :=
  xs.foldl (fun st d => (add_breaker_data d st).2) s

/-- State after a sequence of `POST /api/busbars` calls. -/
def run_busbar_appends (xs : List BusbarData) (s : Store) : Store :=
  xs.foldl (fun st d => (add_busbar_data d st).2) s

/-- State after a sequence of `POST /api/alarms` calls. -/
def run_alarm_appends (xs : List AlarmData) (s : Store) : Store :=
  xs.foldl (fun st a => (create_alarm a st).2) s

theorem run_transformer_appends_transformers (xs : List TransformerData) (s : Store) :
    (run_transformer_appends xs s).transformers
      = xs.foldl (fun acc x => lastN 100 (acc ++ [x])) s.transformers := by
  induction xs generalizing s with
  | nil => rfl
  | cons x xs ih =>
    show (run_transformer_appends xs ((add_transformer_data x s).2)).transformers = _
    rw [ih]
    rfl

theorem run_breaker_appends_breakers (xs : List CircuitBreakerData) (s : Store) :
    (run_breaker_appends xs s).circuit_breakers
      = xs.foldl (fun acc x => lastN 100 (acc ++ [x])) s.circuit_breakers := by
  induction xs generalizing s with
  | nil => rfl
  | cons x xs ih =>
    show (run_breaker_appends xs ((add_breaker_data x s).2)).circuit_breakers = _
    rw [ih]
    rfl

theorem run_busbar_appends_busbars (xs : List BusbarData) (s : Store) :
    (run_busbar_appends xs s).busbars
      = xs.foldl (fun acc x => lastN 100 (acc ++ [x])) s.busbars := by
  induction xs generalizing s with
  | nil => rfl
  | cons x xs ih =>
    show (run_busbar_appends xs ((add_busbar_data x s).2)).busbars = _
    rw [ih]
    rfl

theorem run_alarm_appends_alarms (xs : List AlarmData) (s : Store) :
    (run_alarm_appends xs s).alarms = s.alarms ++ xs := by
  induction xs generalizing s with
  | nil => simp [run_alarm_appends]
  | cons x xs ih =>
    show (run_alarm_appends xs ((create_alarm x s).2)).alarms = _
    rw [ih]
    simp [create_alarm]

/-- A concrete transformer reading with id `"T" ++ i` and timestamp `i`. -/
def mkTransformer (i : Nat) : TransformerData :=
  ⟨"T" ++ toString i, 33, 11, 100, 300, 60, 70, 80, 1, i⟩

/-- 101 pairwise distinct transformer readings, appended in order. -/
def transformerBatch101 : List TransformerData :=
  (List.range 101).map mkTransformer

/-- C1: for each equipment category, after any sequence of appends from the
empty store the stored sequence is exactly the trailing 100 of the appended
readings in insertion order (hence its length is at most 100); appending the
101 distinct readings `transformerBatch101` leaves the 2nd through 101st in
order and the first-appended reading absent. -/
theorem cap_invariant_all_categories :
    (∀ xs : List TransformerData,
        (run_transformer_appends xs initialStore).transformers
          = xs.drop (xs.length - 100)
      ∧ (run_transformer_appends xs initialStore).transformers.length ≤ 100)
  ∧ (∀ xs : List CircuitBreakerData,
        (run_breaker_appends xs initialStore).circuit_breakers
          = xs.drop (xs.length - 100)
      ∧ (run_breaker_appends xs initialStore).circuit_breakers.length ≤ 100)
  ∧ (∀ xs : List BusbarData,
        (run_busbar_appends xs initialStore).busbars = xs.drop (xs.length - 100)
      ∧ (run_busbar_appends xs initialStore).busbars.length ≤ 100)
  ∧ (run_transformer_appends transformerBatch101 initialStore).transformers
      = transformerBatch101.drop 1
  ∧ mkTransformer 0 ∉
      (run_transformer_appends transformerBatch101 initialStore).transformers := by
  have hT : ∀ xs : List TransformerData,
      (run_transformer_appends xs initialStore).transformers
        = xs.drop (xs.length - 100) := by
    intro xs
    rw [run_transformer_appends_transformers,
      foldl_capped_append xs initialStore.transformers (by simp [initialStore])]
    simp [initialStore, lastN]
  have hB : ∀ xs : List CircuitBreakerData,
      (run_breaker_appends xs initialStore).circuit_breakers
        = xs.drop (xs.length - 100) := by
    intro xs
    rw [run_breaker_appends_breakers,
      foldl_capped_append xs initialStore.circuit_breakers (by simp [initialStore])]
    simp [initialStore, lastN]
  have hBB : ∀ xs : List BusbarData,
      (run_busbar_appends xs initialStore).busbars = xs.drop (xs.length - 100) := by
    intro xs
    rw [run_busbar_appends_busbars,
      foldl_capped_append xs initialStore.busbars (by simp [initialStore])]
    simp [initialStore, lastN]
  have hlen : transformerBatch101.length = 101 := by
    simp [transformerBatch101]
  have h101 : (run_transformer_appends transformerBatch101 initialStore).transformers
      = transformerBatch101.drop 1 := by
    rw [hT transformerBatch101, hlen]
  refine ⟨fun xs => ⟨hT xs, ?_⟩, fun xs => ⟨hB xs, ?_⟩, fun xs => ⟨hBB xs, ?_⟩,
    h101, ?_⟩
  · rw [hT xs]; simp [List.length_drop]; omega
  · rw [hB xs]; simp [List.length_drop]; omega
  · rw [hBB xs]; simp [List.length_drop]; omega
  · rw [h101]
    decide

/-! ### The dashboard's insertion-ordered dict -/

theorem lookup_cons_pair (k k' : String) (v : α) (m : List (String × α)) :
    (((k', v) :: m)).lookup k = if k = k' then some v else m.lookup k := by
  by_cases h : k = k'
  · simp [List.lookup, h]
  · have hb : (k == k') = false := by simp [h]
    simp [List.lookup, hb, h]

theorem lookup_upsert (k k' : String) (v : α) (m : List (String × α)) :
    (upsert k' v m).lookup k = if k = k' then some v else m.lookup k := by
  induction m with
  | nil =>
    simp only [upsert]
    rw [lookup_cons_pair]
  | cons p m ih =>
    obtain ⟨k₀, v₀⟩ := p
    by_cases h0 : k₀ = k'
    · subst h0
      have hu : upsert k₀ v ((k₀, v₀) :: m) = (k₀, v) :: m := by simp [upsert]
      rw [hu, lookup_cons_pair, lookup_cons_pair]
      by_cases h : k = k₀ <;> simp [h]
    · simp only [upsert, if_neg h0]
      rw [lookup_cons_pair, ih, lookup_cons_pair]
      by_cases h : k = k₀ <;> by_cases h' : k = k' <;> simp_all

theorem keys_upsert (k : String) (v : α) (m : List (String × α)) :
    (upsert k v m).map Prod.fst
      = if k ∈ m.map Prod.fst then m.map Prod.fst else m.map Prod.fst ++ [k] := by
  induction m with
  | nil => simp [upsert]
  | cons p m ih =>
    obtain ⟨k₀, v₀⟩ := p
    by_cases h0 : k₀ = k
    · subst h0
      simp [upsert]
    · have hne : ¬ k = k₀ := fun he => h0 he.symm
      by_cases hm : k ∈ m.map Prod.fst <;>
        simp [upsert, h0, ih, hm, hne]

theorem latestPerId_concat (key : α → String) (l : List α) (t : α) :
    latestPerId key (l ++ [t]) = upsert (key t) t (latestPerId key l) := by
  simp [latestPerId, List.foldl_append]

/-- The output order the spec ascribes to `latest_per_id`: the distinct keys
of the scanned list, each at the position of its first encounter.  This
definition follows the spec's words and is compared against the dict built by
`get_dashboard`. -/
def firstSeenOrder (m : List String) : List String :=
  m.foldl (fun acc k => if k ∈ acc then acc else acc ++ [k]) []

theorem firstSeenOrder_concat (m : List String) (k : String) :
    firstSeenOrder (m ++ [k])
      = if k ∈ firstSeenOrder m then firstSeenOrder m else firstSeenOrder m ++ [k] := by
  simp [firstSeenOrder, List.foldl_append]

theorem nodup_firstSeenOrder_foldl (m acc : List String) (h : acc.Nodup) :
    (m.foldl (fun acc k => if k ∈ acc then acc else acc ++ [k]) acc).Nodup := by
  induction m generalizing acc with
  | nil => simpa using h
  | cons x m ih =>
    rw [List.foldl_cons]
    by_cases hx : x ∈ acc
    · simpa [hx] using ih acc h
    · have : (acc ++ [x]).Nodup := by simp [List.nodup_append, h, hx]
      simpa [hx] using ih (acc ++ [x]) this

theorem nodup_firstSeenOrder (m : List String) : (firstSeenOrder m).Nodup :=
  nodup_firstSeenOrder_foldl m [] (by simp)

theorem mem_firstSeenOrder_foldl (m acc : List String) (k : String) :
    k ∈ m.foldl (fun acc k => if k ∈ acc then acc else acc ++ [k]) acc
      ↔ k ∈ acc ∨ k ∈ m := by
  induction m generalizing acc with
  | nil => simp
  | cons x m ih =>
    rw [List.foldl_cons]
    by_cases hx : x ∈ acc
    · rw [if_pos hx, ih]
      constructor
      · rintro (h | h)
        · exact Or.inl h
        · exact Or.inr (List.mem_cons_of_mem x h)
      · rintro (h | h)
        · exact Or.inl h
        · rcases List.mem_cons.mp h with rfl | h
          · exact Or.inl hx
          · exact Or.inr h
    · rw [if_neg hx, ih]
      simp [List.mem_append, List.mem_cons]
      tauto

theorem mem_firstSeenOrder (m : List String) (k : String) :
    k ∈ firstSeenOrder m ↔ k ∈ m := by
  simpa using mem_firstSeenOrder_foldl m [] k

/-- The keys of the dashboard dict are the scanned ids in first-encounter
order. -/
theorem keys_latestPerId (key : α → String) (l : List α) :
    (latestPerId key l).map Prod.fst = firstSeenOrder (l.map key) := by
  induction l using List.reverseRecOn with
  | nil => rfl
  | append_singleton l t ih =>
    rw [latestPerId_concat, keys_upsert, ih, List.map_append, List.map_singleton,
      firstSeenOrder_concat]

theorem nodup_keys_latestPerId (key : α → String) (l : List α) :
    ((latestPerId key l).map Prod.fst).Nodup := by
  rw [keys_latestPerId]
  exact nodup_firstSeenOrder _

/-- The dashboard dict maps each id to the last reading of the scan carrying
that id. -/
theorem lookup_latestPerId (key : α → String) (l : List α) (k : String) :
    (latestPerId key l).lookup k = (l.filter (fun t => key t == k)).getLast? := by
  induction l using List.reverseRecOn with
  | nil => rfl
  | append_singleton l t ih =>
    rw [latestPerId_concat, lookup_upsert, List.filter_append]
    by_cases h : key t = k
    · rw [if_pos h.symm]
      have : [t].filter (fun t => key t == k) = [t] := by simp [h]
      rw [this, List.getLast?_concat]
    · have hb : (key t == k) = false := by simp [h]
      have : [t].filter (fun t => key t == k) = [] := by simp [hb]
      rw [this, List.append_nil, if_neg (fun he => h he.symm), ih]

/-- Transformer reading `(id=T1, v=1)` of the spec's latest-by-id example. -/
def exT1v1 : TransformerData := ⟨"T1", 1, 11, 100, 300, 60, 70, 80, 1, 1⟩

/-- Transformer reading `(id=T2, v=2)` of the spec's latest-by-id example. -/
def exT2v2 : TransformerData := ⟨"T2", 2, 11, 100, 300, 60, 70, 80, 1, 2⟩

/-- Transformer reading `(id=T1, v=3)` of the spec's latest-by-id example. -/
def exT1v3 : TransformerData := ⟨"T1", 3, 11, 100, 300, 60, 70, 80, 1, 3⟩

/-- C2: the dashboard's per-category dict keeps exactly one entry per distinct
id (its keys are duplicate-free), maps every id to the last-inserted reading
with that id (overwrite-on-duplicate), and lists ids in first-encounter order
of the scan; on the spec's example `[(T1,v=1), (T2,v=2), (T1,v=3)]` it yields
values `[T1 with v=3, T2 with v=2]`, with id `T1` before `T2`. -/
theorem latest_per_id_correct :
    (∀ (α : Type) (key : α → String) (l : List α) (k : String),
        ((latestPerId key l).map Prod.fst).Nodup
      ∧ (latestPerId key l).lookup k = (l.filter (fun t => key t == k)).getLast?
      ∧ (latestPerId key l).map Prod.fst = firstSeenOrder (l.map key))
  ∧ (latestPerId (fun t => t.transformer_id) [exT1v1, exT2v2, exT1v3]).map Prod.snd
      = [exT1v3, exT2v2]
  ∧ (latestPerId (fun t => t.transformer_id) [exT1v1, exT2v2, exT1v3]).map Prod.fst
      = ["T1", "T2"] := by
  refine ⟨fun α key l k => ⟨nodup_keys_latestPerId key l, lookup_latestPerId key l k,
    keys_latestPerId key l⟩, ?_, ?_⟩ <;> decide

/-- C3: querying an id with no stored reading leaves the store unchanged, but
the handler does not fail with a 404 not-found signal: since the source
constructs `HTTPException` with the unsupported keyword `message`, the
construction itself fails with `TypeError` (surfaced as an internal error,
not a 404-equivalent not-found response). -/
theorem notfound_query_raises_type_error :
    (∀ (tid : String) (s : Store), (get_transformer tid s).2 = s)
  ∧ (∀ (bid : String) (s : Store), (get_breaker bid s).2 = s)
  ∧ (get_transformer "T9" initialStore).1
      = Except.error (PyError.typeError
          "HTTPException got an unexpected keyword argument message")
  ∧ (∀ (st : Nat) (d : String), (get_transformer "T9" initialStore).1
        ≠ Except.error (PyError.httpException st d))
  ∧ (get_breaker "CB9" initialStore).1
      = Except.error (PyError.typeError
          "HTTPException got an unexpected keyword argument message") := by
  refine ⟨?_, ?_, rfl, ?_, rfl⟩
  · intro tid s
    by_cases h : s.transformers.filter (fun t => t.transformer_id == tid) = [] <;>
      simp [get_transformer, h]
  · intro bid s
    by_cases h : s.circuit_breakers.filter (fun b => b.breaker_id == bid) = [] <;>
      simp [get_breaker, h]
  · intro st d h
    have : (get_transformer "T9" initialStore).1
        = Except.error (PyError.typeError
            "HTTPException got an unexpected keyword argument message") := rfl
    rw [this] at h
    simp at h

/-- Transformer reading with id `T1` inserted first, with the larger timestamp. -/
def exTposA : TransformerData := ⟨"T1", 33, 11, 100, 300, 60, 70, 80, 1, 5⟩

/-- Transformer reading with id `T1` inserted last, with the smaller timestamp. -/
def exTposB : TransformerData := ⟨"T1", 33, 11, 100, 300, 60, 70, 80, 1, 3⟩

/-- A circuit-breaker reading with id `CB1`. -/
def exCB : CircuitBreakerData := ⟨"CB1", "closed", 33, 150, 200, 1⟩

/-- Store holding two `T1` transformer readings (later one has the smaller
timestamp) and one `CB1` breaker reading. -/
def byIdStore : Store := ⟨[exTposA, exTposB], [exCB], [], []⟩

/-- Store holding the same two `T1` transformer readings and no reading in
any other category. -/
def tOnlyStore : Store := ⟨[exTposA, exTposB], [], [], []⟩

/-- C6: when at least one reading matches the queried id, the by-id handlers
return the ordered matching subsequence as history and its final element as
latest; each category's statement assumes only that category's match.
Position in the sequence, not timestamp, determines latest: on `tOnlyStore`
(which has no breaker readings at all) the latest `T1` reading is the
last-inserted one even though its timestamp is smaller. -/
theorem get_by_id_success :
    (∀ (tid : String) (s : Store)
        (ht : s.transformers.filter (fun t => t.transformer_id == tid) ≠ []),
        (get_transformer tid s).1
          = Except.ok ⟨tid,
              (s.transformers.filter (fun t => t.transformer_id == tid)).getLast ht,
              s.transformers.filter (fun t => t.transformer_id == tid)⟩
      ∧ (∀ r ∈ s.transformers.filter (fun t => t.transformer_id == tid),
            r.transformer_id = tid)
      ∧ (s.transformers.filter (fun t => t.transformer_id == tid)).Sublist
          s.transformers)
  ∧ (∀ (bid : String) (s : Store)
        (hb : s.circuit_breakers.filter (fun b => b.breaker_id == bid) ≠ []),
        (get_breaker bid s).1
          = Except.ok ⟨bid,
              (s.circuit_breakers.filter (fun b => b.breaker_id == bid)).getLast hb,
              s.circuit_breakers.filter (fun b => b.breaker_id == bid)⟩
      ∧ (∀ r ∈ s.circuit_breakers.filter (fun b => b.breaker_id == bid),
            r.breaker_id = bid)
      ∧ (s.circuit_breakers.filter (fun b => b.breaker_id == bid)).Sublist
          s.circuit_breakers)
  ∧ (get_transformer "T1" tOnlyStore).1
      = Except.ok ⟨"T1", exTposB, [exTposA, exTposB]⟩
  ∧ exTposB.timestamp < exTposA.timestamp := by
  refine ⟨fun tid s ht => ⟨?_, ?_, List.filter_sublist _⟩,
    fun bid s hb => ⟨?_, ?_, List.filter_sublist _⟩, rfl, by decide⟩
  · simp [get_transformer, ht]
  · intro r hr
    have := (List.mem_filter.mp hr).2
    simpa using this
  · simp [get_breaker, hb]
  · intro r hr
    have := (List.mem_filter.mp hr).2
    simpa using this

/-- Witness for `get_by_id_success`: the transformer part at `tOnlyStore`,
whose breaker category is empty, and the breaker part at `byIdStore`. -/
theorem get_by_id_success_witness :
    (get_transformer "T1" tOnlyStore).1
      = Except.ok ⟨"T1",
          (tOnlyStore.transformers.filter
            (fun t => t.transformer_id == "T1")).getLast (by decide),
          tOnlyStore.transformers.filter (fun t => t.transformer_id == "T1")⟩
  ∧ (get_breaker "CB1" byIdStore).1
      = Except.ok ⟨"CB1",
          (byIdStore.circuit_breakers.filter
            (fun b => b.breaker_id == "CB1")).getLast (by decide),
          byIdStore.circuit_breakers.filter (fun b => b.breaker_id == "CB1")⟩ :=
  ⟨(get_by_id_success.1 "T1" tOnlyStore (by decide)).1,
    (get_by_id_success.2.1 "CB1" byIdStore (by decide)).1⟩

/-- Alarm 1 of the spec's severity example: critical. -/
def alarmC1 : AlarmData := ⟨"A1", "E1", "critical", "high oil temperature", 1⟩

/-- Alarm 2 of the spec's severity example: warning. -/
def alarmW2 : AlarmData := ⟨"A2", "E1", "warning", "high load", 2⟩

/-- Alarm 3 of the spec's severity example: critical. -/
def alarmC3 : AlarmData := ⟨"A3", "E2", "critical", "winding temperature", 3⟩

/-- Store whose alarm log has severities `[critical, warning, critical]`. -/
def sevStore3 : Store := ⟨[], [], [], [alarmC1, alarmW2, alarmC3]⟩

/-- Store whose alarm log holds a single critical alarm. -/
def sevStore1 : Store := ⟨[], [], [], [alarmC1]⟩

/-- C5 counterexample: with the empty string as the severity filter, the
handler does not return the alarms whose severity equals the filter — the
Python guard `if severity:` treats `""` as no filter and returns every alarm,
here one whose severity is `"critical"`, not `""`. -/
theorem alarms_by_severity_empty_string_cex :
    ¬ ((get_alarms (some "") sevStore1).1.data
        = sevStore1.alarms.filter (fun a => a.severity == "")) := by
  decide

/-- C5 (amended): for every non-empty severity filter, the handler returns
exactly the alarms whose severity equals it, in insertion order, with a
matching count; with no filter it returns all alarms unchanged; the spec's
`[critical, warning, critical]` example filters to the 1st and 3rd alarms. -/
theorem alarms_by_severity_correct (sv : String) (s : Store) (h : sv ≠ "") :
    (get_alarms (some sv) s).1.data = s.alarms.filter (fun a => a.severity == sv)
  ∧ (get_alarms (some sv) s).1.count
      = (s.alarms.filter (fun a => a.severity == sv)).length
  ∧ (∀ s' : Store, (get_alarms none s').1.data = s'.alarms
      ∧ (get_alarms none s').1.count = s'.alarms.length)
  ∧ (get_alarms (some "critical") sevStore3).1.data = [alarmC1, alarmC3]
  ∧ (get_alarms none sevStore3).1.data = [alarmC1, alarmW2, alarmC3] := by
  refine ⟨?_, ?_, fun s' => ⟨rfl, rfl⟩, ?_, rfl⟩
  · simp [get_alarms, h]
  · simp [get_alarms, h]
  · decide

/-- Witness for `alarms_by_severity_correct` on the `[critical, warning,
critical]` store with filter `"critical"`. -/
theorem alarms_by_severity_correct_witness :
    (get_alarms (some "critical") sevStore3).1.data
      = sevStore3.alarms.filter (fun a => a.severity == "critical") :=
  (alarms_by_severity_correct "critical" sevStore3 (by decide)).1

/-- C9: the empty-string severity filter is treated as no filter: the handler
returns every alarm unchanged (same response as passing no filter), as the
guard `if severity:` is false for `""`; on `sevStore1` it returns the one
alarm even though that alarm's severity is `"critical"`, not `""`. -/
theorem alarms_empty_string_means_unfiltered :
    (∀ s : Store, (get_alarms (some "") s).1 = (get_alarms none s).1)
  ∧ (∀ s : Store, (get_alarms none s).1.data = s.alarms)
  ∧ (get_alarms (some "") sevStore1).1.data = [alarmC1]
  ∧ alarmC1.severity ≠ "" := by
  exact ⟨fun s => rfl, fun s => rfl, rfl, by decide⟩

/-- C7: the alarm log is unbounded: any sequence of alarm creations appends
every alarm in order and evicts nothing, and the unfiltered list handler
returns all alarms ever appended, in insertion order. -/
theorem alarm_log_unbounded :
    (∀ (xs : List AlarmData) (s : Store),
        (run_alarm_appends xs s).alarms = s.alarms ++ xs)
  ∧ (∀ (xs : List AlarmData) (s : Store),
        (get_alarms none (run_alarm_appends xs s)).1.data = s.alarms ++ xs
      ∧ (get_alarms none (run_alarm_appends xs s)).1.count
          = s.alarms.length + xs.length)
  ∧ (∀ xs : List AlarmData, (run_alarm_appends xs initialStore).alarms = xs) := by
  refine ⟨run_alarm_appends_alarms, fun xs s => ⟨?_, ?_⟩, fun xs => ?_⟩
  · show (run_alarm_appends xs s).alarms = s.alarms ++ xs
    exact run_alarm_appends_alarms xs s
  · show (run_alarm_appends xs s).alarms.length = s.alarms.length + xs.length
    rw [run_alarm_appends_alarms]
    simp
  · rw [run_alarm_appends_alarms]
    simp [initialStore]

/-- C10: each append mutates only its own category: the other three category
sequences are unchanged by any single write. -/
theorem append_frame_condition (s : Store) (t : TransformerData)
    (cb : CircuitBreakerData) (bb : BusbarData) (al : AlarmData) :
    ((add_transformer_data t s).2.circuit_breakers = s.circuit_breakers
      ∧ (add_transformer_data t s).2.busbars = s.busbars
      ∧ (add_transformer_data t s).2.alarms = s.alarms)
  ∧ ((add_breaker_data cb s).2.transformers = s.transformers
      ∧ (add_breaker_data cb s).2.busbars = s.busbars
      ∧ (add_breaker_data cb s).2.alarms = s.alarms)
  ∧ ((add_busbar_data bb s).2.transformers = s.transformers
      ∧ (add_busbar_data bb s).2.circuit_breakers = s.circuit_breakers
      ∧ (add_busbar_data bb s).2.alarms = s.alarms)
  ∧ ((create_alarm al s).2.transformers = s.transformers
      ∧ (create_alarm al s).2.circuit_breakers = s.circuit_breakers
      ∧ (create_alarm al s).2.busbars = s.busbars) :=
  ⟨⟨rfl, rfl, rfl⟩, ⟨rfl, rfl, rfl⟩, ⟨rfl, rfl, rfl⟩, rfl, rfl, rfl⟩

theorem length_firstSeenOrder (m : List String) :
    (firstSeenOrder m).length = m.toFinset.card := by
  have h1 : (firstSeenOrder m).toFinset = m.toFinset := by
    ext k
    simp [List.mem_toFinset, mem_firstSeenOrder]
  rw [← h1, List.toFinset_card_of_nodup (nodup_firstSeenOrder m)]

theorem length_latestPerId (key : α → String) (l : List α) :
    (latestPerId key l).length = (l.map key).toFinset.card := by
  have h : (latestPerId key l).length
      = ((latestPerId key l).map Prod.fst).length := by simp
  rw [h, keys_latestPerId, length_firstSeenOrder]

/-- C4: the dashboard reports, for each category, the values of the
latest-per-id dict; the alarm field is the tail slice of the 10 most recent
alarms in insertion order; each `total_*` statistic is the number of distinct
ids in its category; `active_alarms` counts the sliced alarm tail; the
handler never fails and leaves the store unchanged; on the empty store all
lists are empty and all counts zero. -/
theorem dashboard_snapshot_correct (now : String) (s : Store) :
    (get_dashboard now s).1.transformers
      = (latestPerId (fun t => t.transformer_id) s.transformers).map Prod.snd
  ∧ (get_dashboard now s).1.circuit_breakers
      = (latestPerId (fun b => b.breaker_id) s.circuit_breakers).map Prod.snd
  ∧ (get_dashboard now s).1.busbars
      = (latestPerId (fun bb => bb.busbar_id) s.busbars).map Prod.snd
  ∧ (get_dashboard now s).1.alarms = lastN 10 s.alarms
  ∧ (get_dashboard now s).1.alarms = s.alarms.drop (s.alarms.length - 10)
  ∧ (get_dashboard now s).1.statistics.total_transformers
      = (s.transformers.map (fun t => t.transformer_id)).toFinset.card
  ∧ (get_dashboard now s).1.statistics.total_breakers
      = (s.circuit_breakers.map (fun b => b.breaker_id)).toFinset.card
  ∧ (get_dashboard now s).1.statistics.total_busbars
      = (s.busbars.map (fun bb => bb.busbar_id)).toFinset.card
  ∧ (get_dashboard now s).1.statistics.active_alarms = (lastN 10 s.alarms).length
  ∧ (get_dashboard now s).1.statistics.active_alarms = min 10 s.alarms.length
  ∧ (get_dashboard now s).1.timestamp = now
  ∧ (get_dashboard now s).2 = s
  ∧ (get_dashboard now initialStore).1.transformers = []
  ∧ (get_dashboard now initialStore).1.circuit_breakers = []
  ∧ (get_dashboard now initialStore).1.busbars = []
  ∧ (get_dashboard now initialStore).1.alarms = []
  ∧ (get_dashboard now initialStore).1.statistics = ⟨0, 0, 0, 0⟩ := by
  refine ⟨rfl, rfl, rfl, rfl, rfl, ?_, ?_, ?_, rfl, ?_, rfl, rfl, rfl, rfl, rfl,
    rfl, rfl⟩
  · exact length_latestPerId _ _
  · exact length_latestPerId _ _
  · exact length_latestPerId _ _
  · show (lastN 10 s.alarms).length = min 10 s.alarms.length
    simp [lastN]
    omega

/-- C8 counterexample: two dashboard reads with no intervening writes are not
identical responses, because the `timestamp` field records the wall-clock
instant of each call. -/
theorem dashboard_reads_not_identical_cex :
    (get_dashboard "2025-01-01T00:00:00" initialStore).1
      ≠ (get_dashboard "2025-01-01T00:00:01"
          (get_dashboard "2025-01-01T00:00:00" initialStore).2).1 := by
  decide

/-- C8 (amended): reads are idempotent up to the dashboard's wall-clock
timestamp: a read leaves the store unchanged, so a second read with no
intervening writes returns an identical response for `get_all` of every
category and for the alarm list, and a dashboard response identical in every
field except `timestamp`. -/
theorem reads_idempotent_up_to_timestamp (s : Store) (now₁ now₂ : String) :
    (get_all_transformers (get_all_transformers s).2).1 = (get_all_transformers s).1
  ∧ (get_all_transformers s).2 = s
  ∧ (get_all_breakers (get_all_breakers s).2).1 = (get_all_breakers s).1
  ∧ (get_all_breakers s).2 = s
  ∧ (get_all_busbars (get_all_busbars s).2).1 = (get_all_busbars s).1
  ∧ (get_all_busbars s).2 = s
  ∧ (∀ sev : Option String,
        (get_alarms sev (get_alarms sev s).2).1 = (get_alarms sev s).1
      ∧ (get_alarms sev s).2 = s)
  ∧ (get_dashboard now₁ s).2 = s
  ∧ (get_dashboard now₂ (get_dashboard now₁ s).2).1.transformers
      = (get_dashboard now₁ s).1.transformers
  ∧ (get_dashboard now₂ (get_dashboard now₁ s).2).1.circuit_breakers
      = (get_dashboard now₁ s).1.circuit_breakers
  ∧ (get_dashboard now₂ (get_dashboard now₁ s).2).1.busbars
      = (get_dashboard now₁ s).1.busbars
  ∧ (get_dashboard now₂ (get_dashboard now₁ s).2).1.alarms
      = (get_dashboard now₁ s).1.alarms
  ∧ (get_dashboard now₂ (get_dashboard now₁ s).2).1.statistics
      = (get_dashboard now₁ s).1.statistics :=
  ⟨rfl, rfl, rfl, rfl, rfl, rfl, fun sev => ⟨rfl, rfl⟩, rfl, rfl, rfl, rfl, rfl,
    rfl⟩
